import Mathlib

/-!
Verification of the melissa key-management / HPKE core (`src/keys.rs`,
`src/crypto/hpke.rs`) against its natural-language specification.

Shallow embedding conventions:
* Byte strings are `List Nat` (each entry a byte value; the Rust types
  guarantee byte ranges, which none of the proved properties depend on).
* Fallible Rust code returning `Result<_, CodecError>` is embedded as `DRes`,
  which has a third outcome `crash` marking a Rust panic (slice index out of
  range, `Option::unwrap` on `None`): panics are modelled explicitly so that
  "never panics" claims are statable.
* The wire-codec primitives (`codec::Cursor`, `decode_vec_u8`,
  `decode_vec_u16`, `sub_cursor_u16`, big-endian integers) are repository code
  that is not under `src/`; they are modelled from the spec (section 6), and
  the in-source known-answer test `test_user_init_key` pins the model
  (see `test_user_init_key_vector` below).
* External cryptographic primitives (sodiumoxide scalarmult / ed25519, the
  hkdf and aesgcm modules) are out-of-scope collaborators per the spec; they
  are taken as function parameters, constrained only where their documented
  contract matters (e.g. `ed25519::PublicKey::from_slice` returns `None` iff
  the slice length is wrong).
-/

namespace Melissa

set_option maxRecDepth 100000

/-- Byte strings. -/
abbrev Bytes := List Nat

/-- `codec::CodecError`. -/
inductive CodecError where
  | EncodingError
  | DecodingError
deriving DecidableEq

/-- Outcome of a fallible decode: `ok`, an explicit `CodecError`, or `crash`
(a Rust panic, e.g. an out-of-range slice or `unwrap` on `None`). -/
inductive DRes (α : Type) where
  | ok (a : α)
  | err (e : CodecError)
  | crash
deriving DecidableEq

/-- Modelled from the spec: fixed-width `u16` big-endian encoding of the wire
codec (truncating as the Rust `u16` type does). -/
def u16be (n : Nat) : Bytes := [n / 256 % 256, n % 256]

/-- Modelled from the spec: `codec::encode_vec_u8` — a 1-byte byte-count
prefix followed by the payload bytes (the count cast to `u8`). -/
def encode_vec_u8 (payload : Bytes) : Bytes := (payload.length % 256) :: payload

/-- Modelled from the spec: `codec::encode_vec_u16` — a 2-byte big-endian
byte-count prefix followed by the payload bytes. -/
def encode_vec_u16 (payload : Bytes) : Bytes := u16be payload.length ++ payload

/-- Modelled from the spec: `u8::decode` — read one byte from the cursor. -/
def decode_u8 : Bytes → DRes (Nat × Bytes)
  | [] => .err .DecodingError
  | b :: rest => .ok (b, rest)

/-- Modelled from the spec: `u16::decode` — read two bytes, big-endian. -/
def decode_u16 : Bytes → DRes (Nat × Bytes)
  | b1 :: b2 :: rest => .ok (b1 * 256 + b2, rest)
  | _ => .err .DecodingError

/-- Modelled from the spec: read exactly `n` bytes from the cursor, failing
explicitly when fewer are available. -/
def readBytes (n : Nat) (c : Bytes) : DRes (Bytes × Bytes) :=
  if n ≤ c.length then .ok (c.take n, c.drop n) else .err .DecodingError

/-- Modelled from the spec: `codec::decode_vec_u16` — a 2-byte byte-length
prefix, then that many payload bytes. -/
def decode_vec_u16 (c : Bytes) : DRes (Bytes × Bytes) :=
  match decode_u16 c with
  | .ok (n, c) => readBytes n c
  | .err e => .err e
  | .crash => .crash

/-- Modelled from the spec: `Cursor::sub_cursor_u16` — reads a `u16`
byte-length prefix and yields a bounded view of exactly that many bytes. -/
def sub_cursor_u16 (c : Bytes) : DRes (Bytes × Bytes) := decode_vec_u16 c

/-- Modelled from the spec: element-wise decoding of a buffer of big-endian
`u16` values, consuming the whole buffer (a trailing odd byte is an error). -/
def parseU16s : Bytes → DRes (List Nat)
  | [] => .ok []
  | [_] => .err .DecodingError
  | b1 :: b2 :: rest =>
    match parseU16s rest with
    | .ok l => .ok ((b1 * 256 + b2) :: l)
    | .err e => .err e
    | .crash => .crash

/-- Modelled from the spec: `codec::decode_vec_u8` instantiated at
`Vec<CipherSuite>` (`u16` elements) — a 1-byte byte-length prefix, then that
many bytes decoded as consecutive `u16` values. -/
def decode_vec_u8_ciphersuites (c : Bytes) : DRes (List Nat × Bytes) :=
  match decode_u8 c with
  | .ok (n, c) =>
    match readBytes n c with
    | .ok (v, c) =>
      match parseU16s v with
      | .ok l => .ok (l, c)
      | .err e => .err e
      | .crash => .crash
    | .err e => .err e
    | .crash => .crash
  | .err e => .err e
  | .crash => .crash

/-- `keys::X25519PublicKey` — a 32-byte curve point (`[u8; 32]` in the
source; the fixed length appears as a hypothesis where it matters). -/
structure X25519PublicKey where
  bytes : Bytes
deriving DecidableEq

/-- `impl Codec for X25519PublicKey`: encode side (`encode_vec_u16`). -/
def X25519PublicKey.encode (k : X25519PublicKey) : Bytes :=
  encode_vec_u16 k.bytes

/-- `impl Codec for X25519PublicKey`: decode side. The source writes
`value.clone_from_slice(&decode_vec_u16(cursor)?[..32])`, which panics when
the decoded vector holds fewer than 32 bytes. -/
def X25519PublicKey.decode (c : Bytes) : DRes (X25519PublicKey × Bytes) :=
  match decode_vec_u16 c with
  | .ok (v, c) => if v.length < 32 then .crash else .ok (⟨v.take 32⟩, c)
  | .err e => .err e
  | .crash => .crash

/-- `keys::SignaturePublicKey` (= `ed25519::PublicKey`, 32 bytes). -/
structure SignaturePublicKey where
  bytes : Bytes
deriving DecidableEq

/-- `impl Codec for SignaturePublicKey`: encode side. -/
def SignaturePublicKey.encode (k : SignaturePublicKey) : Bytes :=
  encode_vec_u16 k.bytes

/-- `impl Codec for SignaturePublicKey`: decode side. The source unwraps
`ed25519::PublicKey::from_slice`, which (by sodiumoxide's contract) is `None`
iff the slice is not exactly 32 bytes — so the unwrap panics in that case. -/
def SignaturePublicKey.decode (c : Bytes) : DRes (SignaturePublicKey × Bytes) :=
  match decode_vec_u16 c with
  | .ok (v, c) => if v.length = 32 then .ok (⟨v⟩, c) else .crash
  | .err e => .err e
  | .crash => .crash

/-- `keys::Signature` (= `ed25519::Signature`, 64 bytes). -/
structure Signature where
  bytes : Bytes
deriving DecidableEq

/-- `impl Codec for Signature`: encode side. -/
def Signature.encode (s : Signature) : Bytes :=
  encode_vec_u16 s.bytes

/-- `impl Codec for Signature`: decode side, unwrapping
`ed25519::Signature::from_slice` (`None` iff the length is not 64). -/
def Signature.decode (c : Bytes) : DRes (Signature × Bytes) :=
  match decode_vec_u16 c with
  | .ok (v, c) => if v.length = 64 then .ok (⟨v⟩, c) else .crash
  | .err e => .err e
  | .crash => .crash

/-- `keys::AES128GCM_P256_SHA256`. -/
def AES128GCM_P256_SHA256 : Nat := 0

/-- `keys::AES128GCM_CURVE25519_SHA256`. -/
def AES128GCM_CURVE25519_SHA256 : Nat := 1

/-- `keys::ED25519` (`SignatureScheme` id `0x0807`). -/
def ED25519 : Nat := 0x0807

/-- `keys::UserInitKey`. -/
structure UserInitKey where
  cipher_suites : List Nat
  init_keys : List X25519PublicKey
  algorithm : Nat
  identity_key : SignaturePublicKey
  signature : Signature
deriving DecidableEq

/-- `Signable::unsigned_payload` for `UserInitKey`: ciphersuites (u8-vec of
u16 ids) ‖ init keys (u16-vec of encoded keys) ‖ algorithm ‖ identity key. -/
def UserInitKey.unsigned_payload (u : UserInitKey) : Bytes :=
  encode_vec_u8 ((u.cipher_suites.map u16be).flatten)
    ++ encode_vec_u16 ((u.init_keys.map X25519PublicKey.encode).flatten)
    ++ u16be u.algorithm
    ++ SignaturePublicKey.encode u.identity_key

/-- `impl Codec for UserInitKey`: encode side — unsigned payload then the
signature. -/
def UserInitKey.encode (u : UserInitKey) : Bytes :=
  u.unsigned_payload ++ Signature.encode u.signature

/-- The per-ciphersuite loop of `UserInitKey::decode`: P-256 payloads are
consumed and discarded, X25519 payloads are decoded and kept (overwriting any
earlier one), unknown ids consume a payload and then hard-fail. -/
def suiteLoop : List Nat → Bytes → Option X25519PublicKey →
    DRes (Option X25519PublicKey)
  | [], _, acc => .ok acc
  | cs :: rest, p, acc =>
    if cs = AES128GCM_P256_SHA256 then
      match decode_vec_u16 p with
      | .ok (_, p2) => suiteLoop rest p2 acc
      | .err e => .err e
      | .crash => .crash
    else if cs = AES128GCM_CURVE25519_SHA256 then
      match X25519PublicKey.decode p with
      | .ok (k, p2) => suiteLoop rest p2 (some k)
      | .err e => .err e
      | .crash => .crash
    else
      match decode_vec_u16 p with
      | .ok _ => .err .DecodingError
      | .err e => .err e
      | .crash => .crash

/-- `impl Codec for UserInitKey`: decode side (`src/keys.rs` lines 325-369). -/
def UserInitKey.decode (c : Bytes) : DRes (UserInitKey × Bytes) :=
  match decode_vec_u8_ciphersuites c with
  | .err e => .err e
  | .crash => .crash
  | .ok (cipher_suites, c) =>
    match sub_cursor_u16 c with
    | .err e => .err e
    | .crash => .crash
    | .ok (cs_payload, c) =>
      if cipher_suites.isEmpty then .err .DecodingError
      else
        match suiteLoop cipher_suites cs_payload none with
        | .err e => .err e
        | .crash => .crash
        | .ok none => .err .DecodingError
        | .ok (some k) =>
          match decode_u16 c with
          | .err e => .err e
          | .crash => .crash
          | .ok (algorithm, c) =>
            if algorithm ≠ ED25519 then .err .DecodingError
            else
              match SignaturePublicKey.decode c with
              | .err e => .err e
              | .crash => .crash
              | .ok (identity_key, c) =>
                match Signature.decode c with
                | .err e => .err e
                | .crash => .crash
                | .ok (signature, c) =>
                  .ok ({ cipher_suites := cipher_suites,
                         init_keys := [k],
                         algorithm := algorithm,
                         identity_key := identity_key,
                         signature := signature }, c)

/-! ### Identity and the Ed25519 signature primitive -/

/-- The external `sodiumoxide` Ed25519 primitive, taken abstractly:
`pubOf` maps a secret key to its public key, `sign_detached payload sk` and
`verify_detached sig payload pk` mirror the library's functions. -/
structure Ed25519 where
  pubOf : Bytes → Bytes
  sign_detached : Bytes → Bytes → Bytes
  verify_detached : Bytes → Bytes → Bytes → Bool

/-- The documented contract of the Ed25519 primitive: a signature produced
with a secret key verifies against the matching public key. -/
def Ed25519.Correct (E : Ed25519) : Prop :=
  ∀ payload sk, E.verify_detached (E.sign_detached payload sk) payload (E.pubOf sk) = true

/-- `keys::Identity` — id label, Ed25519 public key, Ed25519 private key. -/
structure Identity where
  id : Bytes
  public_key : SignaturePublicKey
  private_key : Bytes

/-- `Identity::sign`: detached Ed25519 signature with the private key. -/
def Identity.sign (E : Ed25519) (i : Identity) (payload : Bytes) : Bytes :=
  E.sign_detached payload i.private_key

/-- `UserInitKey::new`: fixed suite list `[AES128GCM_CURVE25519_SHA256]`,
the given keys copied verbatim, algorithm `ED25519`, the identity's public
key, an all-zero placeholder signature then the real signature over the
unsigned payload. -/
def UserInitKey.new (E : Ed25519) (init_keys : List X25519PublicKey)
    (identity : Identity) : UserInitKey :=
  let init_key : UserInitKey :=
    { cipher_suites := [AES128GCM_CURVE25519_SHA256]
      init_keys := init_keys
      algorithm := ED25519
      identity_key := identity.public_key
      signature := ⟨List.replicate 64 0⟩ }
  { init_key with signature := ⟨Identity.sign E identity init_key.unsigned_payload⟩ }

/-- `UserInitKey::self_verify`: check the stored signature over the
recomputed unsigned payload against the stored identity key. -/
def UserInitKey.self_verify (E : Ed25519) (u : UserInitKey) : Bool :=
  E.verify_detached u.signature.bytes u.unsigned_payload u.identity_key.bytes

/-! ### HPKE engine (`src/crypto/hpke.rs`) -/

/-- `aesgcm::AesError` (external AEAD module's error type). -/
inductive AesError where
  | EncryptionError
  | DecryptionError
deriving DecidableEq

/-- `hpke::HpkeKemError` is an alias of `AesError`. -/
abbrev HpkeKemError := AesError

/-- `keys::Zero` — the degenerate-Diffie-Hellman marker. -/
structure Zero where
deriving DecidableEq

/-- `hpke::NK_AES_GCM_128`. -/
def NK_AES_GCM_128 : Nat := 16

/-- `hpke::NN_AES_GCM_128`. -/
def NN_AES_GCM_128 : Nat := 12

/-- `HpkeMode::Base` as `u8`. -/
def HpkeModeBase : Nat := 0

/-- `HpkeCipherSuite::X25519Sha256Aes128gcm` as `u16` (`0x003`). -/
def X25519Sha256Aes128gcm : Nat := 3

/-- `hpke::HpkeContext`. -/
structure HpkeContext where
  ciphersuite : Nat
  mode : Nat
  kem_context : Bytes
  info : Bytes

/-- `impl Codec for HpkeContext`: ciphersuite (u16 BE), mode (u8), then the
u8-length-prefixed kem_context and info vectors. -/
def HpkeContext.encode (h : HpkeContext) : Bytes :=
  u16be h.ciphersuite ++ [h.mode % 256]
    ++ encode_vec_u8 h.kem_context ++ encode_vec_u8 h.info

/-- Bytes of a UTF-8/ASCII label string. -/
def strBytes (s : String) : Bytes := s.toList.map Char.toNat

/-- `hpke::setup_core_x25519_aes_128`, with the opaque hkdf `expand` as a
parameter (`expand prk info outLen`): serialize the context, then derive
`key = Expand(secret, "hpke key" ‖ context, 16)` and
`nonce = Expand(secret, "hpke nonce" ‖ context, 12)`. -/
def setup_core_x25519_aes_128 (expand : Bytes → Bytes → Nat → Bytes)
    (mode : Nat) (secret kem_context info : Bytes) : Bytes × Bytes :=
  let ciphersuite := X25519Sha256Aes128gcm
  let nk := NK_AES_GCM_128
  let nn := NN_AES_GCM_128
  let hpke_context : HpkeContext :=
    { ciphersuite := ciphersuite, mode := mode,
      kem_context := kem_context, info := info }
  let context_buffer := hpke_context.encode
  let keyLabel := strBytes "hpke key" ++ context_buffer
  let key := expand secret keyLabel nk
  let nonceLabel := strBytes "hpke nonce" ++ context_buffer
  let nonce := expand secret nonceLabel nn
  (key, nonce)

/-- `hpke::setup_base_x25519_aes_128`, with the opaque hkdf `extract`
(`extract salt input`) and `expand` as parameters: kem_context is
`enc ‖ pkR`, the salt is 32 zero bytes, mode is Base. -/
def setup_base_x25519_aes_128 (extract : Bytes → Bytes → Bytes)
    (expand : Bytes → Bytes → Nat → Bytes)
    (pkr : X25519PublicKey) (zz enc info : Bytes) : Bytes × Bytes :=
  let mode := HpkeModeBase
  let kem_context := enc ++ pkr.bytes
  let salt := List.replicate 32 0
  let secret := extract salt zz
  setup_core_x25519_aes_128 expand mode secret kem_context info

/-- Modelled from the spec: `crypto::aesgcm::aes_128_seal` is repository code
not under `src/`; per the spec's external-interface contract the AEAD
primitive is consumed as an opaque seal over a payload, a key and a nonce —
it has no associated-data input, so it invokes the underlying AEAD `seal`
(msg, aad, key, nonce) with empty associated data. -/
def aes_128_seal (sealP : Bytes → Bytes → Bytes → Bytes → Except AesError Bytes)
    (msg key nonce : Bytes) : Except AesError Bytes :=
  sealP msg [] key nonce

/-- `hpke::HpkeCiphertext`. -/
structure HpkeCiphertext where
  ephemeral_public_key : X25519PublicKey
  content : Bytes
deriving DecidableEq

/-- Outcome of an HPKE encryption: success, an `HpkeKemError`, or `crash`
(a Rust panic). -/
inductive EncRes where
  | ok (c : HpkeCiphertext)
  | err (e : HpkeKemError)
  | crash
deriving DecidableEq

/-- `X25519PrivateKey::shared_secret`, with the external scalarmult taken
abstractly as `dh sk pkBytes` (`Err Zero` when the result is degenerate). -/
def X25519PrivateKey.shared_secret (dh : Bytes → Bytes → Except Zero Bytes)
    (sk : Bytes) (p : X25519PublicKey) : Except Zero Bytes :=
  dh sk p.bytes

/-- `HpkeCiphertext::enc_x25519_aes`: the source calls
`.shared_secret(public_key).unwrap()`, so a degenerate DH result is a panic
(`crash`), not an error value; otherwise it derives (key, nonce) via
`setup_base` and seals `enc` as the plaintext. -/
def HpkeCiphertext.enc_x25519_aes (dh : Bytes → Bytes → Except Zero Bytes)
    (extract : Bytes → Bytes → Bytes) (expand : Bytes → Bytes → Nat → Bytes)
    (sealP : Bytes → Bytes → Bytes → Bytes → Except AesError Bytes)
    (public_key : X25519PublicKey) (enc : Bytes)
    (eph_priv : Bytes) (eph_pub : X25519PublicKey) : EncRes :=
  match X25519PrivateKey.shared_secret dh eph_priv public_key with
  | .error _ => .crash
  | .ok zz =>
    let kn := setup_base_x25519_aes_128 extract expand public_key zz enc []
    match aes_128_seal sealP enc kn.1 kn.2 with
    | .error e => .err e
    | .ok content => .ok { ephemeral_public_key := eph_pub, content := content }

/-- `keys::X25519KeyPair` (public/private byte material). -/
structure X25519KeyPair where
  private_key : Bytes
  public_key : X25519PublicKey

/-- `HpkeCiphertext::encrypt_with_ephemeral`: forwards to `enc_x25519_aes`
with the supplied ephemeral keypair. -/
def HpkeCiphertext.encrypt_with_ephemeral (dh : Bytes → Bytes → Except Zero Bytes)
    (extract : Bytes → Bytes → Bytes) (expand : Bytes → Bytes → Nat → Bytes)
    (sealP : Bytes → Bytes → Bytes → Bytes → Except AesError Bytes)
    (public_key : X25519PublicKey) (enc : Bytes) (key_pair : X25519KeyPair) : EncRes :=
  HpkeCiphertext.enc_x25519_aes dh extract expand sealP public_key enc
    key_pair.private_key key_pair.public_key

/-! ### Spec-side definitions used to settle refinement claims -/

/-- Modelled from the spec: the byte layout claimed for `UserInitKey::encode`
(claim C7's wording) — a 1-byte COUNT of ciphersuites, 2-byte ids; a 2-byte
total length of the key-suite block, per suite a 2-byte key length + key
bytes; 2-byte algorithm id; 2-byte length + identity key; 2-byte length +
signature. -/
def claimC7Layout (u : UserInitKey) : Bytes :=
  [u.cipher_suites.length % 256] ++ (u.cipher_suites.map u16be).flatten
    ++ encode_vec_u16 ((u.init_keys.map X25519PublicKey.encode).flatten)
    ++ u16be u.algorithm
    ++ encode_vec_u16 u.identity_key.bytes
    ++ encode_vec_u16 u.signature.bytes

/-- Modelled from the spec: claim C8's reading of `enc_x25519_aes`, in which
the AEAD seal receives `enc` as additional authenticated data in addition to
sealing `enc` as the plaintext. -/
def enc_x25519_aes_claimC8 (dh : Bytes → Bytes → Except Zero Bytes)
    (extract : Bytes → Bytes → Bytes) (expand : Bytes → Bytes → Nat → Bytes)
    (sealP : Bytes → Bytes → Bytes → Bytes → Except AesError Bytes)
    (public_key : X25519PublicKey) (enc : Bytes)
    (eph_priv : Bytes) (eph_pub : X25519PublicKey) : EncRes :=
  match X25519PrivateKey.shared_secret dh eph_priv public_key with
  | .error _ => .crash
  | .ok zz =>
    let kn := setup_base_x25519_aes_128 extract expand public_key zz enc []
    match sealP enc enc kn.1 kn.2 with
    | .error e => .err e
    | .ok content => .ok { ephemeral_public_key := eph_pub, content := content }

/-! ### Concrete values: the in-source known-answer vector and inputs for
witnesses and counterexamples -/

/-- X25519 public key of the in-source known-answer test `test_user_init_key`. -/
def katDhPub : Bytes := [60, 179, 252, 107, 146, 113, 179, 8, 239, 237, 192, 41, 80, 34, 120, 222, 212, 47, 196, 175, 24, 26, 68, 227, 21, 73, 245, 59, 155, 247, 67, 108]

/-- Ed25519 public key of the known-answer test. -/
def katIdPub : Bytes := [95, 51, 77, 3, 66, 89, 226, 214, 103, 13, 108, 168, 245, 169, 55, 234, 124, 233, 67, 130, 89, 41, 47, 136, 114, 174, 166, 199, 187, 138, 162, 192]

/-- Signature bytes of the known-answer test. -/
def katSig : Bytes := [125, 241, 31, 99, 146, 220, 127, 27, 214, 250, 251, 52, 170, 34, 12, 84, 87, 210, 229, 138, 43, 178, 194, 29, 164, 135, 138, 62, 138, 184, 176, 186, 42, 242, 168, 126, 113, 2, 210, 61, 225, 105, 248, 128, 227, 134, 136, 64, 107, 52, 229, 130, 182, 233, 120, 134, 119, 85, 227, 127, 179, 82, 219, 12]

/-- The full `uik_hex` byte string of the known-answer test. -/
def katBytes : Bytes := [2, 0, 1, 0, 34, 0, 32, 60, 179, 252, 107, 146, 113, 179, 8, 239, 237, 192, 41, 80, 34, 120, 222, 212, 47, 196, 175, 24, 26, 68, 227, 21, 73, 245, 59, 155, 247, 67, 108, 8, 7, 0, 32, 95, 51, 77, 3, 66, 89, 226, 214, 103, 13, 108, 168, 245, 169, 55, 234, 124, 233, 67, 130, 89, 41, 47, 136, 114, 174, 166, 199, 187, 138, 162, 192, 0, 64, 125, 241, 31, 99, 146, 220, 127, 27, 214, 250, 251, 52, 170, 34, 12, 84, 87, 210, 229, 138, 43, 178, 194, 29, 164, 135, 138, 62, 138, 184, 176, 186, 42, 242, 168, 126, 113, 2, 210, 61, 225, 105, 248, 128, 227, 134, 136, 64, 107, 52, 229, 130, 182, 233, 120, 134, 119, 85, 227, 127, 179, 82, 219, 12]

/-- The `UserInitKey` value of the known-answer test. -/
def katUik : UserInitKey :=
  { cipher_suites := [AES128GCM_CURVE25519_SHA256]
    init_keys := [⟨katDhPub⟩]
    algorithm := ED25519
    identity_key := ⟨katIdPub⟩
    signature := ⟨katSig⟩ }

/-- A degenerate concrete DH: the scalar multiplication always reports a zero
result (as sodiumoxide does for a small-order peer point). -/
def dhZero : Bytes → Bytes → Except Zero Bytes := fun _ _ => Except.error Zero.mk

/-- A succeeding concrete DH returning a fixed 32-byte shared secret. -/
def dhOk : Bytes → Bytes → Except Zero Bytes := fun _ _ => Except.ok (List.replicate 32 9)

/-- A trivial concrete hkdf extract instance. -/
def extract0 : Bytes → Bytes → Bytes := fun _ _ => []

/-- A trivial concrete hkdf expand instance. -/
def expand0 : Bytes → Bytes → Nat → Bytes := fun _ _ _ => []

/-- A trivial concrete AEAD seal instance (always succeeds, empty output). -/
def seal0 : Bytes → Bytes → Bytes → Bytes → Except AesError Bytes :=
  fun _ _ _ _ => Except.ok []

/-- A concrete AEAD seal instance that returns its associated-data argument,
making visible which associated data the caller supplied. -/
def sealAadProbe : Bytes → Bytes → Bytes → Bytes → Except AesError Bytes :=
  fun _ aad _ _ => Except.ok aad

/-- The all-zero 32-byte public key (a small-order point on the real curve). -/
def zeroPk : X25519PublicKey := ⟨List.replicate 32 0⟩

/-- A concrete Ed25519 instance satisfying the primitive's contract: the
public key equals the secret key and a signature is the key followed by the
payload. -/
def E0 : Ed25519 :=
  { pubOf := fun sk => sk
    sign_detached := fun payload sk => sk ++ payload
    verify_detached := fun s payload pk => decide (s = pk ++ payload) }

/-- A concrete identity whose public key matches its private key under `E0`. -/
def id0 : Identity := { id := [], public_key := ⟨[5]⟩, private_key := [5] }

/-- A wire blob whose declared ciphersuite list is `[1, 7]` (it contains the
unknown id 7) and whose X25519 key payload declares only 5 bytes. -/
def c1Wire : Bytes := [4, 0, 1, 0, 7, 0, 7, 0, 5, 9, 9, 9, 9, 9]

/-- A wire blob declaring suites `[0, 1]`: an empty P-256 payload, then a
32-byte X25519 key, Ed25519 algorithm, identity key and signature. -/
def c4Wire : Bytes :=
  [4, 0, 0, 0, 1] ++ ([0, 36] ++ ([0, 0] ++ ([0, 32] ++ katDhPub)))
    ++ ([8, 7] ++ ([0, 32] ++ katIdPub) ++ ([0, 64] ++ katSig))

/-- The decoder-accepted value of `c4Wire`: suites `[0, 1]` but a single
retained X25519 key. -/
def c4Value : UserInitKey :=
  { cipher_suites := [AES128GCM_P256_SHA256, AES128GCM_CURVE25519_SHA256]
    init_keys := [⟨katDhPub⟩]
    algorithm := ED25519
    identity_key := ⟨katIdPub⟩
    signature := ⟨katSig⟩ }

/-- A wire blob declaring the X25519 suite twice, carrying two different
32-byte keys. -/
def c9Wire : Bytes :=
  [4, 0, 1, 0, 1]
    ++ ([0, 68] ++ ([0, 32] ++ List.replicate 32 1 ++ ([0, 32] ++ List.replicate 32 2)))
    ++ ([8, 7] ++ ([0, 32] ++ katIdPub) ++ ([0, 64] ++ katSig))

/-- The value `c9Wire` decodes to: only the second (last) X25519 key is
retained. -/
def c9Value : UserInitKey :=
  { cipher_suites := [AES128GCM_CURVE25519_SHA256, AES128GCM_CURVE25519_SHA256]
    init_keys := [⟨List.replicate 32 2⟩]
    algorithm := ED25519
    identity_key := ⟨katIdPub⟩
    signature := ⟨katSig⟩ }

/-!
## Theorems

General lemmas first, then one theorem per claim (with witnesses and
counterexamples where required).
-/

/-- Every error produced by `decode_u8` is `DecodingError`. -/
theorem decode_u8_err_eq {c : Bytes} {e : CodecError}
    (h : decode_u8 c = .err e) : e = .DecodingError := by
  cases c with
  | nil => injection h with h; exact h.symm
  | cons b r => simp [decode_u8] at h

/-- Every error produced by `decode_u16` is `DecodingError`. -/
theorem decode_u16_err_eq {c : Bytes} {e : CodecError}
    (h : decode_u16 c = .err e) : e = .DecodingError := by
  rcases c with _ | ⟨b1, _ | ⟨b2, r⟩⟩
  · injection h with h; exact h.symm
  · injection h with h; exact h.symm
  · simp [decode_u16] at h

/-- Every error produced by `readBytes` is `DecodingError`. -/
theorem readBytes_err_eq {n : Nat} {c : Bytes} {e : CodecError}
    (h : readBytes n c = .err e) : e = .DecodingError := by
  unfold readBytes at h
  split at h
  · simp at h
  · injection h with h; exact h.symm

/-- Every error produced by `decode_vec_u16` is `DecodingError`. -/
theorem decode_vec_u16_err_eq {c : Bytes} {e : CodecError}
    (h : decode_vec_u16 c = .err e) : e = .DecodingError := by
  unfold decode_vec_u16 at h
  split at h
  · exact readBytes_err_eq h
  · rename_i heq; injection h with h; exact h ▸ decode_u16_err_eq heq
  · simp at h

/-- Every error produced by `parseU16s` is `DecodingError`. -/
theorem parseU16s_err_eq : ∀ (c : Bytes) (e : CodecError),
    parseU16s c = .err e → e = .DecodingError
  | [], e, h => by simp [parseU16s] at h
  | [b], e, h => by injection h with h; exact h.symm
  | b1 :: b2 :: rest, e, h => by
    unfold parseU16s at h
    split at h
    · simp at h
    · rename_i heq; injection h with h
      exact h ▸ parseU16s_err_eq rest _ heq
    · simp at h

/-- Every error produced by `decode_vec_u8_ciphersuites` is `DecodingError`. -/
theorem decode_vec_u8_ciphersuites_err_eq {c : Bytes} {e : CodecError}
    (h : decode_vec_u8_ciphersuites c = .err e) : e = .DecodingError := by
  unfold decode_vec_u8_ciphersuites at h
  split at h
  · split at h
    · split at h
      · simp at h
      · rename_i heq; injection h with h; exact h ▸ parseU16s_err_eq _ _ heq
      · simp at h
    · rename_i heq; injection h with h; exact h ▸ readBytes_err_eq heq
    · simp at h
  · rename_i heq; injection h with h; exact h ▸ decode_u8_err_eq heq
  · simp at h

/-- Every error produced by `X25519PublicKey::decode` is `DecodingError`. -/
theorem xpk_decode_err_eq {c : Bytes} {e : CodecError}
    (h : X25519PublicKey.decode c = .err e) : e = .DecodingError := by
  unfold X25519PublicKey.decode at h
  split at h
  · split at h <;> simp at h
  · rename_i heq; injection h with h; exact h ▸ decode_vec_u16_err_eq heq
  · simp at h

/-- Every error produced by `SignaturePublicKey::decode` is `DecodingError`. -/
theorem spk_decode_err_eq {c : Bytes} {e : CodecError}
    (h : SignaturePublicKey.decode c = .err e) : e = .DecodingError := by
  unfold SignaturePublicKey.decode at h
  split at h
  · split at h <;> simp at h
  · rename_i heq; injection h with h; exact h ▸ decode_vec_u16_err_eq heq
  · simp at h

/-- Every error produced by `Signature::decode` is `DecodingError`. -/
theorem sigv_decode_err_eq {c : Bytes} {e : CodecError}
    (h : Signature.decode c = .err e) : e = .DecodingError := by
  unfold Signature.decode at h
  split at h
  · split at h <;> simp at h
  · rename_i heq; injection h with h; exact h ▸ decode_vec_u16_err_eq heq
  · simp at h

/-- Every error produced by the per-ciphersuite decode loop is
`DecodingError`. -/
theorem suiteLoop_err_eq : ∀ (l : List Nat) (p : Bytes)
    (acc : Option X25519PublicKey) (e : CodecError),
    suiteLoop l p acc = .err e → e = .DecodingError := by
  intro l
  induction l with
  | nil => intro p acc e h; simp [suiteLoop] at h
  | cons a t ih =>
    intro p acc e h
    unfold suiteLoop at h
    split at h
    · split at h
      · exact ih _ _ _ h
      · rename_i heq; injection h with h; exact h ▸ decode_vec_u16_err_eq heq
      · simp at h
    · split at h
      · split at h
        · exact ih _ _ _ h
        · rename_i heq; injection h with h
          exact h ▸ xpk_decode_err_eq heq
        · simp at h
      · split at h
        · injection h with h; exact h.symm
        · rename_i heq; injection h with h; exact h ▸ decode_vec_u16_err_eq heq
        · simp at h

/-- Every error produced by `UserInitKey::decode` is `DecodingError`. -/
theorem uik_decode_err_eq : ∀ (c : Bytes) (e : CodecError),
    UserInitKey.decode c = .err e → e = .DecodingError := by
  intro c e h
  unfold UserInitKey.decode at h
  split at h
  · rename_i heq; injection h with h; exact h ▸ decode_vec_u8_ciphersuites_err_eq heq
  · simp at h
  · split at h
    · rename_i heq; injection h with h; exact h ▸ decode_vec_u16_err_eq heq
    · simp at h
    · split at h
      · injection h with h; exact h.symm
      · split at h
        · rename_i heq; injection h with h
          exact h ▸ suiteLoop_err_eq _ _ _ _ heq
        · simp at h
        · injection h with h; exact h.symm
        · split at h
          · rename_i heq; injection h with h; exact h ▸ decode_u16_err_eq heq
          · simp at h
          · split at h
            · injection h with h; exact h.symm
            · split at h
              · rename_i heq; injection h with h
                exact h ▸ spk_decode_err_eq heq
              · simp at h
              · split at h
                · rename_i heq; injection h with h
                  exact h ▸ sigv_decode_err_eq heq
                · simp at h
                · simp at h

/-- A successful suite loop only ever saw the two recognized ciphersuite
ids. -/
theorem suiteLoop_ok_ids : ∀ (l : List Nat) (p : Bytes)
    (acc r : Option X25519PublicKey), suiteLoop l p acc = .ok r →
    ∀ cs ∈ l, cs = AES128GCM_P256_SHA256 ∨ cs = AES128GCM_CURVE25519_SHA256 := by
  intro l
  induction l with
  | nil => intro p acc r h cs hmem; simp at hmem
  | cons a t ih =>
    intro p acc r h cs hmem
    unfold suiteLoop at h
    split at h
    · rename_i ha
      split at h
      · rcases List.mem_cons.mp hmem with rfl | hmem
        · exact Or.inl ha
        · exact ih _ _ _ h cs hmem
      · simp at h
      · simp at h
    · rename_i ha0
      split at h
      · rename_i ha1
        split at h
        · rcases List.mem_cons.mp hmem with rfl | hmem
          · exact Or.inr ha1
          · exact ih _ _ _ h cs hmem
        · simp at h
        · simp at h
      · split at h <;> simp at h

/-- A suite loop that ends holding a key either saw an X25519 entry or
started with one. -/
theorem suiteLoop_ok_some_mem : ∀ (l : List Nat) (p : Bytes)
    (acc : Option X25519PublicKey) (k : X25519PublicKey),
    suiteLoop l p acc = .ok (some k) →
    AES128GCM_CURVE25519_SHA256 ∈ l ∨ acc ≠ none := by
  intro l
  induction l with
  | nil =>
    intro p acc k h
    injection h with h
    exact Or.inr (by rw [h]; simp)
  | cons a t ih =>
    intro p acc k h
    unfold suiteLoop at h
    split at h
    · split at h
      · rcases ih _ _ _ h with hmem | hacc
        · exact Or.inl (List.mem_cons_of_mem _ hmem)
        · exact Or.inr hacc
      · simp at h
      · simp at h
    · split at h
      · rename_i ha0 ha1
        exact Or.inl (ha1 ▸ List.mem_cons_self a t)
      · split at h <;> simp at h

/-- Inversion of a successful `UserInitKey::decode`: the declared suite list
is non-empty, holds only recognized ids, holds an X25519 entry, the
algorithm is Ed25519, and exactly one key is retained. -/
theorem UserInitKey.decode_ok_inv : ∀ (c : Bytes) (u : UserInitKey) (rest : Bytes),
    UserInitKey.decode c = .ok (u, rest) →
    u.cipher_suites ≠ []
      ∧ (∀ cs ∈ u.cipher_suites,
          cs = AES128GCM_P256_SHA256 ∨ cs = AES128GCM_CURVE25519_SHA256)
      ∧ AES128GCM_CURVE25519_SHA256 ∈ u.cipher_suites
      ∧ u.algorithm = ED25519
      ∧ u.init_keys.length = 1 := by
  intro c u rest h
  unfold UserInitKey.decode at h
  split at h
  · simp at h
  · simp at h
  · split at h
    · simp at h
    · simp at h
    · rename_i cs c1 heqcs payload c2 heqsub
      split at h
      · simp at h
      · rename_i hemp
        split at h
        · simp at h
        · simp at h
        · simp at h
        · rename_i k heqloop
          split at h
          · simp at h
          · simp at h
          · rename_i alg c3 heqalg
            split at h
            · simp at h
            · rename_i halg
              split at h
              · simp at h
              · simp at h
              · rename_i ik c4 heqik
                split at h
                · simp at h
                · simp at h
                · rename_i sg c5 heqsig
                  injection h with h
                  injection h with h1 h2
                  subst h1
                  refine ⟨?_, suiteLoop_ok_ids _ _ _ _ heqloop, ?_, not_not.mp halg, rfl⟩
                  · exact fun hnil => hemp (List.isEmpty_iff.mpr hnil)
                  · rcases suiteLoop_ok_some_mem _ _ _ _ heqloop with hm | hacc
                    · exact hm
                    · exact absurd rfl hacc

/-- Reading exactly the length of the leading chunk returns that chunk and
the remainder. -/
theorem readBytes_exact (l r : Bytes) : readBytes l.length (l ++ r) = .ok (l, r) := by
  unfold readBytes
  rw [if_pos (by simp), List.take_left, List.drop_left]

/-- `decode_u16` inverts `u16be` below 2^16. -/
theorem decode_u16_u16be (n : Nat) (h : n < 65536) (r : Bytes) :
    decode_u16 (u16be n ++ r) = .ok (n, r) := by
  have hn : n / 256 % 256 * 256 + n % 256 = n := by omega
  simp [u16be, decode_u16, hn]

/-- `decode_vec_u16` inverts `encode_vec_u16` for payloads below 2^16. -/
theorem decode_vec_u16_encode (v r : Bytes) (h : v.length < 65536) :
    decode_vec_u16 (encode_vec_u16 v ++ r) = .ok (v, r) := by
  unfold decode_vec_u16 encode_vec_u16
  rw [List.append_assoc, decode_u16_u16be _ h]
  exact readBytes_exact v r

/-- `X25519PublicKey`'s codec round-trips on 32-byte keys. -/
theorem xpk_decode_encode (k : X25519PublicKey) (r : Bytes)
    (hk : k.bytes.length = 32) :
    X25519PublicKey.decode (X25519PublicKey.encode k ++ r) = .ok (k, r) := by
  unfold X25519PublicKey.decode X25519PublicKey.encode
  rw [decode_vec_u16_encode _ _ (by omega)]
  have ht : k.bytes.take 32 = k.bytes := by
    rw [← hk]
    exact List.take_length k.bytes
  simp [hk, ht]

/-- `SignaturePublicKey`'s codec round-trips on 32-byte keys. -/
theorem spk_decode_encode (k : SignaturePublicKey) (r : Bytes)
    (hk : k.bytes.length = 32) :
    SignaturePublicKey.decode (SignaturePublicKey.encode k ++ r) = .ok (k, r) := by
  unfold SignaturePublicKey.decode SignaturePublicKey.encode
  rw [decode_vec_u16_encode _ _ (by omega)]
  simp [hk]

/-- `Signature`'s codec round-trips on 64-byte signatures. -/
theorem sig_decode_encode (s : Signature) (r : Bytes)
    (hs : s.bytes.length = 64) :
    Signature.decode (Signature.encode s ++ r) = .ok (s, r) := by
  unfold Signature.decode Signature.encode
  rw [decode_vec_u16_encode _ _ (by omega)]
  simp [hs]

/-- `UserInitKey::decode` applied to the explicit single-X25519-suite wire
image succeeds and reproduces the fields. -/
theorem uik_decode_explicit (k : X25519PublicKey) (ik : SignaturePublicKey)
    (sg : Signature) (hk : k.bytes.length = 32) (hik : ik.bytes.length = 32)
    (hsig : sg.bytes.length = 64) :
    UserInitKey.decode ([2, 0, 1] ++ (encode_vec_u16 (X25519PublicKey.encode k)
        ++ (u16be ED25519 ++ (SignaturePublicKey.encode ik ++ Signature.encode sg))))
      = .ok ({ cipher_suites := [AES128GCM_CURVE25519_SHA256], init_keys := [k],
               algorithm := ED25519, identity_key := ik, signature := sg }, []) := by
  have hlen : (X25519PublicKey.encode k).length = 34 := by
    simp [X25519PublicKey.encode, encode_vec_u16, u16be, hk]
  have h1 : decode_vec_u8_ciphersuites ([2, 0, 1]
        ++ (encode_vec_u16 (X25519PublicKey.encode k)
          ++ (u16be ED25519 ++ (SignaturePublicKey.encode ik ++ Signature.encode sg))))
      = .ok ([AES128GCM_CURVE25519_SHA256],
          encode_vec_u16 (X25519PublicKey.encode k)
            ++ (u16be ED25519 ++ (SignaturePublicKey.encode ik ++ Signature.encode sg))) := by
    unfold decode_vec_u8_ciphersuites
    have hrb : readBytes 2 ([0, 1]
          ++ (encode_vec_u16 (X25519PublicKey.encode k)
            ++ (u16be ED25519 ++ (SignaturePublicKey.encode ik ++ Signature.encode sg))))
        = .ok ([0, 1], encode_vec_u16 (X25519PublicKey.encode k)
            ++ (u16be ED25519 ++ (SignaturePublicKey.encode ik ++ Signature.encode sg))) :=
      readBytes_exact [0, 1] _
    simp only [List.cons_append, List.nil_append] at hrb ⊢
    simp only [decode_u8, hrb]
    simp [parseU16s, AES128GCM_CURVE25519_SHA256]
  have h2 : decode_vec_u16 (encode_vec_u16 (X25519PublicKey.encode k)
        ++ (u16be ED25519 ++ (SignaturePublicKey.encode ik ++ Signature.encode sg)))
      = .ok (X25519PublicKey.encode k,
          u16be ED25519 ++ (SignaturePublicKey.encode ik ++ Signature.encode sg)) :=
    decode_vec_u16_encode _ _ (by omega)
  have h3 : suiteLoop [AES128GCM_CURVE25519_SHA256] (X25519PublicKey.encode k) none
      = .ok (some k) := by
    have hx : X25519PublicKey.decode (X25519PublicKey.encode k) = .ok (k, []) := by
      have h := xpk_decode_encode k [] hk
      rwa [List.append_nil] at h
    unfold suiteLoop
    rw [if_neg (by decide), if_pos rfl]
    simp only [hx]
    rfl
  have h4 : decode_u16 (u16be ED25519
        ++ (SignaturePublicKey.encode ik ++ Signature.encode sg))
      = .ok (ED25519, SignaturePublicKey.encode ik ++ Signature.encode sg) :=
    decode_u16_u16be ED25519 (by decide) _
  have h5 : SignaturePublicKey.decode (SignaturePublicKey.encode ik ++ Signature.encode sg)
      = .ok (ik, Signature.encode sg) := spk_decode_encode ik _ hik
  have h6 : Signature.decode (Signature.encode sg) = .ok (sg, []) := by
    have h := sig_decode_encode sg [] hsig
    rwa [List.append_nil] at h
  unfold UserInitKey.decode
  simp only [h1, h2, h3, h4, h5, h6, sub_cursor_u16]
  simp

/-- Sanity anchor for the spec-modelled wire codec: the embedding reproduces
the in-source known-answer test `test_user_init_key` / `test_uik_interop`
byte for byte, in both directions. -/
theorem test_user_init_key_vector :
    UserInitKey.encode katUik = katBytes
      ∧ UserInitKey.decode katBytes = .ok (katUik, []) := by
  constructor <;> decide

/-- Claim C5: `setup_base` extracts with a 32-zero-byte salt, serializes the
`HpkeContext` (ciphersuite `X25519Sha256Aes128gcm`, mode Base, kem_context
`enc ‖ pkR`, info) through the wire codec, and expands key and nonce with the
labels `"hpke key"` / `"hpke nonce"` and output lengths 16 / 12. -/
theorem C5_setup_base (extract : Bytes → Bytes → Bytes)
    (expand : Bytes → Bytes → Nat → Bytes)
    (pkr : X25519PublicKey) (zz enc info : Bytes) :
    setup_base_x25519_aes_128 extract expand pkr zz enc info =
      (expand (extract (List.replicate 32 0) zz)
         (strBytes "hpke key" ++ HpkeContext.encode
            { ciphersuite := X25519Sha256Aes128gcm, mode := HpkeModeBase,
              kem_context := enc ++ pkr.bytes, info := info }) 16,
       expand (extract (List.replicate 32 0) zz)
         (strBytes "hpke nonce" ++ HpkeContext.encode
            { ciphersuite := X25519Sha256Aes128gcm, mode := HpkeModeBase,
              kem_context := enc ++ pkr.bytes, info := info }) 12) := rfl

/-- Claim C10: `UserInitKey::new` copies the given key slice verbatim (empty
or multi-element included, with no count check against the suite list),
declares the single suite `AES128GCM_CURVE25519_SHA256`, algorithm `ED25519`,
and the identity's public key. -/
theorem C10_new_copies_keys (E : Ed25519) (keys : List X25519PublicKey)
    (identity : Identity) :
    (UserInitKey.new E keys identity).init_keys = keys
      ∧ (UserInitKey.new E keys identity).cipher_suites = [AES128GCM_CURVE25519_SHA256]
      ∧ (UserInitKey.new E keys identity).algorithm = ED25519
      ∧ (UserInitKey.new E keys identity).identity_key = identity.public_key :=
  ⟨rfl, rfl, rfl, rfl⟩

/-- Claim C2 (code bug): when the scalar multiplication reports a zero
(degenerate) shared secret, `enc_x25519_aes` panics — the source unwraps the
`Result` — instead of returning `HpkeKemError`. -/
theorem C2_degenerate_dh_panics (dh : Bytes → Bytes → Except Zero Bytes)
    (extract : Bytes → Bytes → Bytes) (expand : Bytes → Bytes → Nat → Bytes)
    (sealP : Bytes → Bytes → Bytes → Bytes → Except AesError Bytes)
    (public_key : X25519PublicKey) (enc : Bytes)
    (eph_priv : Bytes) (eph_pub : X25519PublicKey)
    (hdh : dh eph_priv public_key.bytes = Except.error Zero.mk) :
    HpkeCiphertext.enc_x25519_aes dh extract expand sealP public_key enc eph_priv eph_pub
      = EncRes.crash := by
  unfold HpkeCiphertext.enc_x25519_aes X25519PrivateKey.shared_secret
  rw [hdh]

/-- Witness for C2: with a DH instance reporting a zero result on the
all-zero public key, encryption crashes (it does not return an error value). -/
theorem C2_witness :
    dhZero (List.replicate 32 9) zeroPk.bytes = Except.error Zero.mk
      ∧ HpkeCiphertext.enc_x25519_aes dhZero extract0 expand0 seal0 zeroPk
          [1, 2] (List.replicate 32 9) zeroPk = EncRes.crash :=
  ⟨rfl, C2_degenerate_dh_panics dhZero extract0 expand0 seal0 zeroPk
    [1, 2] (List.replicate 32 9) zeroPk rfl⟩

/-- Claim C3 (code bug): the codec entities panic instead of returning a
`CodecError` when a length-prefixed field declares a length inconsistent with
the expected fixed size — `X25519PublicKey::decode` on a 1-byte payload,
`SignaturePublicKey::decode` / `Signature::decode` on a 0-byte payload, and
`UserInitKey::decode` on a blob whose X25519 entry declares 5 key bytes. -/
theorem C3_decode_panics :
    X25519PublicKey.decode [0, 1, 170] = DRes.crash
      ∧ SignaturePublicKey.decode [0, 0] = DRes.crash
      ∧ Signature.decode [0, 0] = DRes.crash
      ∧ UserInitKey.decode [2, 0, 1, 0, 7, 0, 5, 9, 9, 9, 9, 9] = DRes.crash := by
  refine ⟨by decide, by decide, by decide, by decide⟩

/-- Claim C6: `UserInitKey::new` signs the canonical unsigned payload with
the identity's private key (overwriting the zero placeholder), and
`self_verify` — a total boolean function — returns `true` on the result,
for any Ed25519 primitive satisfying its contract and any identity whose
stored public key matches its private key. -/
theorem C6_new_signs_and_verifies (E : Ed25519) (hE : Ed25519.Correct E)
    (keys : List X25519PublicKey) (identity : Identity)
    (hid : identity.public_key.bytes = E.pubOf identity.private_key) :
    (UserInitKey.new E keys identity).signature.bytes
        = E.sign_detached ((UserInitKey.new E keys identity).unsigned_payload)
            identity.private_key
      ∧ UserInitKey.self_verify E (UserInitKey.new E keys identity) = true := by
  constructor
  · rfl
  · show E.verify_detached
        (E.sign_detached _ identity.private_key) _ identity.public_key.bytes = true
    rw [hid]
    exact hE _ _

/-- Witness for C6: the contract-satisfying instance `E0` with the matching
identity `id0` — the freshly built `UserInitKey` self-verifies. -/
theorem C6_witness :
    UserInitKey.self_verify E0 (UserInitKey.new E0 [] id0) = true :=
  (C6_new_signs_and_verifies E0 (fun payload sk => by simp [E0]) [] id0 rfl).2

/-- Counterexample for C7: on the known-answer value (exactly one declared
X25519 ciphersuite) the first byte emitted by `encode` is `0x02` — the byte
length of the suite-id block — not the suite count `0x01` the claim
describes. -/
theorem C7_counterexample :
    katUik.cipher_suites = [AES128GCM_CURVE25519_SHA256]
      ∧ UserInitKey.encode katUik ≠ claimC7Layout katUik
      ∧ (UserInitKey.encode katUik).head? = some 2
      ∧ (claimC7Layout katUik).head? = some 1 := by
  refine ⟨by decide, by decide, by decide, by decide⟩

/-- Claim C7 as amended: with one declared X25519 suite the encoding is a
1-byte BYTE LENGTH of the suite-id block (2, since each id is 2 bytes), the
2-byte suite id, a 2-byte total key-block length (34), a 2-byte key length
(32) + key bytes, the 2-byte algorithm id, 2-byte length + identity key, and
2-byte length + signature. -/
theorem C7_layout (u : UserInitKey) (k : X25519PublicKey)
    (h1 : u.cipher_suites = [AES128GCM_CURVE25519_SHA256])
    (h2 : u.init_keys = [k]) (hk : k.bytes.length = 32)
    (hik : u.identity_key.bytes.length = 32) (hsig : u.signature.bytes.length = 64) :
    UserInitKey.encode u =
      [2] ++ u16be AES128GCM_CURVE25519_SHA256
        ++ u16be 34 ++ (u16be 32 ++ k.bytes)
        ++ u16be u.algorithm
        ++ (u16be 32 ++ u.identity_key.bytes)
        ++ (u16be 64 ++ u.signature.bytes) := by
  obtain ⟨cs, iks, alg, ik, sg⟩ := u
  simp only at h1 h2 hik hsig
  subst h1 h2
  simp [UserInitKey.encode, UserInitKey.unsigned_payload, encode_vec_u8,
    encode_vec_u16, X25519PublicKey.encode, SignaturePublicKey.encode,
    Signature.encode, u16be, hk, hik, hsig, AES128GCM_CURVE25519_SHA256]

/-- Witness for C7's amended layout at the known-answer value. -/
theorem C7_witness :
    UserInitKey.encode katUik =
      [2] ++ u16be AES128GCM_CURVE25519_SHA256
        ++ u16be 34 ++ (u16be 32 ++ katDhPub)
        ++ u16be katUik.algorithm
        ++ (u16be 32 ++ katUik.identity_key.bytes)
        ++ (u16be 64 ++ katUik.signature.bytes) :=
  C7_layout katUik ⟨katDhPub⟩ (by decide) (by decide) (by decide) (by decide) (by decide)

/-- Counterexample for C8: with an AEAD instance that reveals the associated
data it was given, the code's ciphertext differs from the claim's reading in
which `enc` is passed as the associated data — the code supplies no (empty)
associated data. -/
theorem C8_counterexample :
    HpkeCiphertext.enc_x25519_aes dhOk extract0 expand0 sealAadProbe zeroPk [7] [1] zeroPk
      ≠ enc_x25519_aes_claimC8 dhOk extract0 expand0 sealAadProbe zeroPk [7] [1] zeroPk := by
  decide

/-- Claim C8 as amended: when the DH succeeds, the AEAD seal receives `enc`
only as the plaintext, under the key and nonce derived by `setup_base`, and
EMPTY associated data. -/
theorem C8_seal_gets_empty_aad (dh : Bytes → Bytes → Except Zero Bytes)
    (extract : Bytes → Bytes → Bytes) (expand : Bytes → Bytes → Nat → Bytes)
    (sealP : Bytes → Bytes → Bytes → Bytes → Except AesError Bytes)
    (public_key : X25519PublicKey) (enc : Bytes)
    (eph_priv : Bytes) (eph_pub : X25519PublicKey) (zz : Bytes)
    (hdh : dh eph_priv public_key.bytes = Except.ok zz) :
    HpkeCiphertext.enc_x25519_aes dh extract expand sealP public_key enc eph_priv eph_pub =
      (match sealP enc []
          (setup_base_x25519_aes_128 extract expand public_key zz enc []).1
          (setup_base_x25519_aes_128 extract expand public_key zz enc []).2 with
        | .error e => EncRes.err e
        | .ok content => EncRes.ok { ephemeral_public_key := eph_pub, content := content }) := by
  unfold HpkeCiphertext.enc_x25519_aes X25519PrivateKey.shared_secret aes_128_seal
  rw [hdh]

/-- Witness for C8's amended statement with concrete primitives. -/
theorem C8_witness :
    HpkeCiphertext.enc_x25519_aes dhOk extract0 expand0 sealAadProbe zeroPk [7] [1] zeroPk
      = EncRes.ok { ephemeral_public_key := zeroPk, content := [] } :=
  (C8_seal_gets_empty_aad dhOk extract0 expand0 sealAadProbe zeroPk [7] [1] zeroPk
    (List.replicate 32 9) rfl).trans (by decide)

/-- Claim C1 as amended: a successful `UserInitKey::decode` implies the
declared suite list was non-empty, contained only the ids 0 and 1, contained
an `AES128GCM_CURVE25519_SHA256` entry, and the algorithm was `ED25519` — so
no `UserInitKey` value is returned in any of the claim's rejection cases —
and every error `decode` returns is `CodecError::DecodingError` (certain
length-inconsistent inputs panic instead of erroring; see the
counterexample). -/
theorem C1_decode_rejects :
    (∀ (c : Bytes) (u : UserInitKey) (rest : Bytes),
        UserInitKey.decode c = .ok (u, rest) →
        u.cipher_suites ≠ []
          ∧ (∀ cs ∈ u.cipher_suites,
              cs = AES128GCM_P256_SHA256 ∨ cs = AES128GCM_CURVE25519_SHA256)
          ∧ AES128GCM_CURVE25519_SHA256 ∈ u.cipher_suites
          ∧ u.algorithm = ED25519)
      ∧ (∀ (c : Bytes) (e : CodecError),
          UserInitKey.decode c = .err e → e = .DecodingError) := by
  constructor
  · intro c u rest h
    obtain ⟨hne, hids, hmem, halg, _⟩ := UserInitKey.decode_ok_inv c u rest h
    exact ⟨hne, hids, hmem, halg⟩
  · exact uik_decode_err_eq

/-- Counterexample for C1 as stated: `c1Wire`'s declared ciphersuite list is
`[1, 7]` — it contains the unrecognized id 7, one of the claim's rejection
cases — yet decoding panics (the earlier X25519 entry declares a 5-byte key
payload) rather than failing with `CodecError::DecodingError`. -/
theorem C1_counterexample :
    decode_vec_u8_ciphersuites c1Wire
        = DRes.ok ([AES128GCM_CURVE25519_SHA256, 7], [0, 7, 0, 5, 9, 9, 9, 9, 9])
      ∧ UserInitKey.decode c1Wire = DRes.crash
      ∧ UserInitKey.decode c1Wire ≠ DRes.err CodecError.DecodingError := by
  refine ⟨by decide, by decide, by decide⟩

/-- Witness for C1: the known-answer blob decodes, and its fields satisfy the
rejection-free conditions; the empty input errs with `DecodingError`. -/
theorem C1_witness :
    katUik.cipher_suites ≠ []
      ∧ AES128GCM_CURVE25519_SHA256 ∈ katUik.cipher_suites
      ∧ katUik.algorithm = ED25519
      ∧ CodecError.DecodingError = CodecError.DecodingError := by
  have h := C1_decode_rejects.1 katBytes katUik [] (by decide)
  exact ⟨h.1, h.2.2.1, h.2.2.2,
    C1_decode_rejects.2 [] CodecError.DecodingError (by decide)⟩

/-- Claim C9: whenever `UserInitKey::decode` succeeds, the resulting
`init_keys` list has exactly one element, however many ciphersuites the wire
data declared. -/
theorem C9_single_key (c : Bytes) (u : UserInitKey) (rest : Bytes)
    (h : UserInitKey.decode c = .ok (u, rest)) : u.init_keys.length = 1 :=
  (UserInitKey.decode_ok_inv c u rest h).2.2.2.2

/-- Witness for C9: a wire blob declaring the X25519 suite twice with two
distinct keys decodes to a value retaining only the second (last) key. -/
theorem C9_witness :
    UserInitKey.decode c9Wire = DRes.ok (c9Value, [])
      ∧ c9Value.init_keys = [⟨List.replicate 32 2⟩]
      ∧ c9Value.init_keys.length = 1 :=
  ⟨by decide, by decide, C9_single_key c9Wire c9Value [] (by decide)⟩

/-- Counterexample for C4 as stated: `c4Value` is decoder-accepted (it is
exactly what `c4Wire` decodes to), yet `decode (encode c4Value)` fails — the
discarded P-256 payload is not re-encoded, so the re-parse runs out of key
payloads. -/
theorem C4_counterexample :
    UserInitKey.decode c4Wire = DRes.ok (c4Value, [])
      ∧ UserInitKey.decode (UserInitKey.encode c4Value)
          = DRes.err CodecError.DecodingError := by
  refine ⟨by decide, by decide⟩

/-- Claim C4 as amended: for a `UserInitKey` whose suite list is exactly
`[AES128GCM_CURVE25519_SHA256]`, whose `init_keys` list holds exactly one
key, and whose algorithm is `ED25519` (with the fixed byte sizes the Rust
types impose), `decode (encode x)` succeeds, returns exactly `x` with no
leftover bytes — hence re-encoding reproduces the original byte string. -/
theorem C4_roundtrip (u : UserInitKey) (k : X25519PublicKey)
    (h1 : u.cipher_suites = [AES128GCM_CURVE25519_SHA256])
    (h2 : u.init_keys = [k]) (halg : u.algorithm = ED25519)
    (hk : k.bytes.length = 32) (hik : u.identity_key.bytes.length = 32)
    (hsig : u.signature.bytes.length = 64) :
    UserInitKey.decode (UserInitKey.encode u) = .ok (u, []) := by
  obtain ⟨cs, iks, alg, ik, sg⟩ := u
  simp only at h1 h2 halg hik hsig
  subst h1 h2 halg
  have henc : UserInitKey.encode
      { cipher_suites := [AES128GCM_CURVE25519_SHA256], init_keys := [k],
        algorithm := ED25519, identity_key := ik, signature := sg }
      = [2, 0, 1] ++ (encode_vec_u16 (X25519PublicKey.encode k)
          ++ (u16be ED25519 ++ (SignaturePublicKey.encode ik ++ Signature.encode sg))) := by
    simp [UserInitKey.encode, UserInitKey.unsigned_payload, encode_vec_u8,
      X25519PublicKey.encode, encode_vec_u16, u16be, AES128GCM_CURVE25519_SHA256,
      SignaturePublicKey.encode, Signature.encode]
  rw [henc]
  exact uik_decode_explicit k ik sg hk hik hsig

/-- Witness for C4's amended round-trip at the known-answer value. -/
theorem C4_witness :
    UserInitKey.decode (UserInitKey.encode katUik) = DRes.ok (katUik, []) :=
  C4_roundtrip katUik ⟨katDhPub⟩ (by decide) (by decide) (by decide) (by decide)
    (by decide) (by decide)

end Melissa

